import Mathlib

/-!
Verification of the wildfire batch-processing repository.

Shallow embedding of the Python modules the claims refer to:
pixel data is modelled as `Option ℚ` (`none` for NaN, since every
comparison with NaN is false in numpy and the code routes NaN to the
no-data class explicitly), strings as Lean `String`, dictionaries as
structures, and caught exceptions as explicit `Except`/constructor
cases.
-/

/-! ### src/visualization/raster_generator.py -/

/-- `RasterGenerator.__init__`: the `self.thresholds` dict, in insertion
order `low, moderate, high, very_high`, each value a `(low, high)` pair. -/
def thresholds : List (ℚ × ℚ) := [(0, 1/4), (1/4, 1/2), (1/2, 3/4), (3/4, 1)]

/-- Per-pixel body of `create_hazard_classification_raster`:
`classified` starts at 0 (`np.zeros_like`), NaN pixels are set to 0, and
then for `level, (low, high) in enumerate(self.thresholds.values(), 1)`
the pixel is set to `level` whenever `low <= value < high`.  A NaN value
satisfies no comparison, hence the `none` case returns 0. -/
def classifyPixel (v : Option ℚ) : ℕ :=
  match v with
  | none => 0
  | some x =>
    (thresholds.enumFrom 1).foldl
      (fun acc p => if p.2.1 ≤ x ∧ x < p.2.2 then p.1 else acc) 0

/-- `create_hazard_classification_raster` as the induced map on the
pixel array read from the probability raster. -/
def create_hazard_classification_raster (data : List (Option ℚ)) : List ℕ :=
  data.map classifyPixel

/-- Band membership rewrites to the nested conditional produced by the
threshold fold; shared shape for the four band lemmas below. -/
theorem classifyPixel_some (x : ℚ) :
    classifyPixel (some x) =
      if 3/4 ≤ x ∧ x < 1 then 4
      else if 1/2 ≤ x ∧ x < 3/4 then 3
      else if 1/4 ≤ x ∧ x < 1/2 then 2
      else if 0 ≤ x ∧ x < 1/4 then 1
      else 0 := by
  simp only [classifyPixel, thresholds, List.enumFrom, List.foldl]

/-- **C1** (amended).  `create_hazard_classification_raster` buckets each
non-NaN pixel value by the half-open bands `[0,0.25) -> 1` (low),
`[0.25,0.5) -> 2` (moderate), `[0.5,0.75) -> 3` (high), `[0.75,1.0) -> 4`
(very high); NaN pixels map to the no-data class 0; a pixel whose value is
exactly `1.0` matches no band (every band test is `low <= v < high`) and is
left at the no-data class 0; and values `0.1, 0.6, 0.9` are classified as
bands `1, 3, 4` respectively. -/
theorem create_hazard_classification_raster_bands :
    (∀ x : ℚ, 0 ≤ x → x < 1/4 → classifyPixel (some x) = 1) ∧
    (∀ x : ℚ, 1/4 ≤ x → x < 1/2 → classifyPixel (some x) = 2) ∧
    (∀ x : ℚ, 1/2 ≤ x → x < 3/4 → classifyPixel (some x) = 3) ∧
    (∀ x : ℚ, 3/4 ≤ x → x < 1 → classifyPixel (some x) = 4) ∧
    classifyPixel none = 0 ∧
    classifyPixel (some 1) = 0 ∧
    create_hazard_classification_raster [some (1/10), some (6/10), some (9/10)]
      = [1, 3, 4] := by
  refine ⟨fun x h0 h1 => ?_, fun x h0 h1 => ?_, fun x h0 h1 => ?_,
    fun x h0 h1 => ?_, rfl, ?_, ?_⟩
  · rw [classifyPixel_some, if_neg (by rintro ⟨a, b⟩; linarith),
      if_neg (by rintro ⟨a, b⟩; linarith), if_neg (by rintro ⟨a, b⟩; linarith),
      if_pos ⟨h0, h1⟩]
  · rw [classifyPixel_some, if_neg (by rintro ⟨a, b⟩; linarith),
      if_neg (by rintro ⟨a, b⟩; linarith), if_pos ⟨h0, h1⟩]
  · rw [classifyPixel_some, if_neg (by rintro ⟨a, b⟩; linarith),
      if_pos ⟨h0, h1⟩]
  · rw [classifyPixel_some, if_pos ⟨h0, h1⟩]
  · norm_num [classifyPixel, thresholds, List.enumFrom]
  · simp only [create_hazard_classification_raster, List.map]
    norm_num [classifyPixel, thresholds, List.enumFrom]

/-- **C1** counterexample: the claim asserts the top band is the closed
interval `[0.75, 1]`, so a pixel whose value is exactly `1.0` would be
classified as band 4; the code tests `value < high` with `high = 1.0`,
hence the pixel stays at the no-data class 0. -/
theorem classifyPixel_at_one_is_nodata :
    classifyPixel (some 1) = 0 ∧ classifyPixel (some 1) ≠ 4 := by
  constructor <;> norm_num [classifyPixel, thresholds, List.enumFrom]

/-- **C1** witness: the first band lemma applied at the concrete value
`0.1`. -/
theorem create_hazard_classification_raster_bands_witness :
    classifyPixel (some (1/10)) = 1 :=
  create_hazard_classification_raster_bands.1 (1/10) (by norm_num) (by norm_num)

/-! ### src/preprocessing/data_validator.py -/

/-- What opening a geospatial file can observe: the file may be absent
(`os.path.exists` is false), opening/reading may raise (the validator
catches the exception), or it yields parsed content. -/
inductive FSFile (α : Type) where
  | missing
  | openError (msg : String)
  | ok (content : α)

/-- Python `str(crs)`: `str(None)` is the string `"None"`. -/
def crsStr : Option String → String
  | none => "None"
  | some s => s

/-- A rasterio dataset as the validators observe it: `crs` is `none` when
the file has no CRS (`src.crs is None`), `data` is the single read band
`src.read(1)` flattened. -/
structure Raster where
  width : ℕ
  height : ℕ
  count : ℕ
  crs : Option String
  nodata : Option ℚ
  res : ℚ × ℚ
  dtypeStr : String
  data : List ℚ

/-- One geometry row of a GeoDataFrame: its `type` string and its
`is_valid` flag. -/
structure Feature where
  geomType : String
  geomIsValid : Bool

/-- A geopandas GeoDataFrame as `validate_perimeter` observes it;
`totalBounds` entries are `none` for NaN (empty frame). -/
structure GeoDataFrame where
  features : List Feature
  crs : Option String
  totalBounds : List (Option ℚ)

/-- The `metadata` dict built by `validate_dem`. -/
structure DemMeta where
  width : ℕ
  height : ℕ
  bands : ℕ
  crs : String
  resolution : ℚ × ℚ
  nodata : Option ℚ

/-- The `metadata` dict built by `validate_perimeter`. -/
structure PerimeterMeta where
  features : ℕ
  crs : String
  geometryType : List String
  bounds : List (Option ℚ)

/-- The `metadata` dict built by `validate_dnbr`. -/
structure DnbrMeta where
  width : ℕ
  height : ℕ
  bands : ℕ
  crs : String
  resolution : ℚ × ℚ
  dtype : String

/-- A validator result `{'valid': ..., 'issues': [...], 'metadata': {...}}`;
`metadata = none` models the initial empty dict (kept when the file is
missing or opening raised before metadata was assigned). -/
structure ValidationResult (μ : Type) where
  valid : Bool
  issues : List String
  metadata : Option μ

/-- `valid_pixels = ~(data == src.nodata) if src.nodata else data != 0`
followed by `valid_pixels.any()`: Python truthiness of `src.nodata` is
false for `None` and for `0.0`. -/
def validPixelExists (src : Raster) : Bool :=
  match src.nodata with
  | some nd =>
    if nd ≠ 0 then src.data.any (fun p => decide (p ≠ nd))
    else src.data.any (fun p => decide (p ≠ 0))
  | none => src.data.any (fun p => decide (p ≠ 0))

/-- `DataValidator.validate_dem`: checklist of band count, CRS presence,
nodata presence and presence of valid elevation data; `valid` is set to
`len(issues) == 0` at the end of the `try` block. -/
def validate_dem (f : FSFile Raster) : ValidationResult DemMeta :=
  match f with
  | .missing => ⟨false, ["File does not exist"], none⟩
  | .openError e => ⟨false, ["Error reading DEM: " ++ e], none⟩
  | .ok src =>
    let md : DemMeta :=
      ⟨src.width, src.height, src.count, crsStr src.crs, src.res, src.nodata⟩
    let issues : List String :=
      (if src.count ≠ 1 then ["Expected 1 band, found " ++ toString src.count] else [])
      ++ (if src.crs = none then ["No CRS defined"] else [])
      ++ (if src.nodata = none then ["No nodata value defined"] else [])
      ++ (if ¬ validPixelExists src then ["No valid elevation data"] else [])
    ⟨issues.isEmpty, issues, some md⟩

/-- `DataValidator.validate_perimeter`: checks feature count, CRS
presence, geometry validity and polygon-ness. -/
def validate_perimeter (f : FSFile GeoDataFrame) : ValidationResult PerimeterMeta :=
  match f with
  | .missing => ⟨false, ["File does not exist"], none⟩
  | .openError e => ⟨false, ["Error reading perimeter: " ++ e], none⟩
  | .ok gdf =>
    let md : PerimeterMeta :=
      ⟨gdf.features.length, crsStr gdf.crs,
        (gdf.features.map (fun g => g.geomType)).eraseDups, gdf.totalBounds⟩
    let invalidCount := (gdf.features.filter (fun g => ¬ g.geomIsValid)).length
    let issues : List String :=
      (if gdf.features.length = 0 then ["No features in shapefile"] else [])
      ++ (if gdf.crs = none then ["No CRS defined"] else [])
      ++ (if invalidCount > 0 then [toString invalidCount ++ " invalid geometries"] else [])
      ++ (if ¬ gdf.features.all
              (fun g => g.geomType = "Polygon" ∨ g.geomType = "MultiPolygon")
          then ["Non-polygon geometries found"] else [])
    ⟨issues.isEmpty, issues, some md⟩

/-- `DataValidator.validate_dnbr`: band count, CRS presence and value
range.  `data.min()` on a zero-size array raises `ValueError`, which the
handler records after metadata and the first two checks already ran, so
the empty-data branch returns `valid = False` with the error recorded as
an issue. -/
def validate_dnbr (f : FSFile Raster) : ValidationResult DnbrMeta :=
  match f with
  | .missing => ⟨false, ["File does not exist"], none⟩
  | .openError e => ⟨false, ["Error reading dNBR: " ++ e], none⟩
  | .ok src =>
    let md : DnbrMeta :=
      ⟨src.width, src.height, src.count, crsStr src.crs, src.res, src.dtypeStr⟩
    let issues1 : List String :=
      (if src.count ≠ 1 then ["Expected 1 band, found " ++ toString src.count] else [])
      ++ (if src.crs = none then ["No CRS defined"] else [])
    match src.data with
    | [] =>
      ⟨false, issues1 ++ ["Error reading dNBR: zero-size array to reduction operation minimum"],
        some md⟩
    | p :: ps =>
      let dataMin := ps.foldl min p
      let dataMax := ps.foldl max p
      let issues := issues1
        ++ (if dataMin < -3000 ∨ dataMax > 3000
            then ["Unusual dNBR range: " ++ toString dataMin ++ " to " ++ toString dataMax]
            else [])
      ⟨issues.isEmpty, issues, some md⟩

/-- The `fire_data` dict handed to `validate_fire_data`: `none` models a
missing or falsy `'dem'`/`'perimeter'`/`'dnbr'` entry, `some f` a path
whose opening behaves as `f`. -/
structure FireData where
  dem : Option (FSFile Raster)
  perimeter : Option (FSFile GeoDataFrame)
  dnbr : Option (FSFile Raster)

/-- The dict returned by `validate_fire_data`; a `none` component result
models the initial empty dict `{}`. -/
structure FireResults where
  fire_valid : Bool
  dem : Option (ValidationResult DemMeta)
  perimeter : Option (ValidationResult PerimeterMeta)
  dnbr : Option (ValidationResult DnbrMeta)
  crs_match : Bool

/-- `results.get(component, {}).get('metadata', {}).get('crs')` with
Python truthiness: contributes the stored CRS string unless the metadata
dict is empty or the string is empty. -/
def crsEntry : Option String → List String
  | some s => if s = "" then [] else [s]
  | none => []

/-- The `crs_list` collected by `validate_fire_data` over the components
`['dem', 'perimeter', 'dnbr']`, given their (optional) results. -/
def fireCrsList (demR : Option (ValidationResult DemMeta))
    (perR : Option (ValidationResult PerimeterMeta))
    (dnbrR : Option (ValidationResult DnbrMeta)) : List String :=
  crsEntry (demR.bind (fun r => r.metadata.map (fun m => m.crs)))
  ++ crsEntry (perR.bind (fun r => r.metadata.map (fun m => m.crs)))
  ++ crsEntry (dnbrR.bind (fun r => r.metadata.map (fun m => m.crs)))

/-- `len(set(crs_list))`: the number of distinct elements. -/
def pySetSize (l : List String) : ℕ := l.dedup.length

/-- `DataValidator.validate_fire_data`: runs each present component's
validator, ands their `valid` flags into `fire_valid`, and clears both
`crs_match` and `fire_valid` when `len(set(crs_list)) > 1`. -/
def validate_fire_data (fd : FireData) : FireResults :=
  let demR := fd.dem.map validate_dem
  let perR := fd.perimeter.map validate_perimeter
  let dnbrR := fd.dnbr.map validate_dnbr
  let fv :=
    (match demR with | some r => r.valid | none => true)
    && (match perR with | some r => r.valid | none => true)
    && (match dnbrR with | some r => r.valid | none => true)
  let m := decide (pySetSize (fireCrsList demR perR dnbrR) ≤ 1)
  ⟨fv && m, demR, perR, dnbrR, m⟩

/-- A list has at most one distinct element iff all its elements are
pairwise equal. -/
theorem pySetSize_le_one_iff (l : List String) :
    pySetSize l ≤ 1 ↔ ∀ c1 ∈ l, ∀ c2 ∈ l, c1 = c2 := by
  unfold pySetSize
  constructor
  · intro h c1 h1 c2 h2
    have h1' : c1 ∈ l.dedup := List.mem_dedup.mpr h1
    have h2' : c2 ∈ l.dedup := List.mem_dedup.mpr h2
    cases e : l.dedup with
    | nil => rw [e] at h1'; simp at h1'
    | cons a t =>
      cases t with
      | nil =>
        rw [e] at h1' h2'
        simp at h1' h2'
        rw [h1', h2']
      | cons b u => rw [e] at h; simp at h
  · intro h
    cases e : l.dedup with
    | nil => simp
    | cons a t =>
      cases t with
      | nil => simp
      | cons b u =>
        exfalso
        have hnd := l.nodup_dedup
        rw [e] at hnd
        have hab : a ≠ b := by
          intro hEq
          exact (List.nodup_cons.mp hnd).1 (hEq ▸ List.mem_cons_self b u)
        have ha : a ∈ l := List.mem_dedup.mp (e ▸ List.mem_cons_self a (b :: u))
        have hb : b ∈ l := by
          have : b ∈ l.dedup := by rw [e]; exact List.mem_cons_of_mem a (List.mem_cons_self b u)
          exact List.mem_dedup.mp this
        exact hab (h a ha b hb)

/-- The `crs_list` that `validate_fire_data` collects for a given
`fire_data` input. -/
def crsListOf (fd : FireData) : List String :=
  fireCrsList (fd.dem.map validate_dem) (fd.perimeter.map validate_perimeter)
    (fd.dnbr.map validate_dnbr)

theorem validate_fire_data_crs_match_eq (fd : FireData) :
    (validate_fire_data fd).crs_match = decide (pySetSize (crsListOf fd) ≤ 1) := rfl

theorem validate_fire_data_valid_and (fd : FireData) :
    (validate_fire_data fd).fire_valid =
      ((fd.dem.map validate_dem).elim true (fun r => r.valid)
        && (fd.perimeter.map validate_perimeter).elim true (fun r => r.valid)
        && (fd.dnbr.map validate_dnbr).elim true (fun r => r.valid)
        && (validate_fire_data fd).crs_match) := by
  cases fd with
  | mk d p n => cases d <;> cases p <;> cases n <;> rfl

/-- **C2** (amended).  `crs_match` is true iff all CRS strings collected
from the validated components are pairwise equal, where a component that
opened successfully but has no CRS contributes the literal string
`"None"` (Python's `str(None)`) rather than being excluded; and whenever
two components contribute differing CRS strings, both `crs_match` and
`fire_valid` are false. -/
theorem validate_fire_data_crs_match_iff :
    (∀ fd : FireData,
      ((validate_fire_data fd).crs_match = true ↔
        ∀ c1 ∈ crsListOf fd, ∀ c2 ∈ crsListOf fd, c1 = c2)) ∧
    (∀ fd : FireData, ∀ c1 c2 : String,
      c1 ∈ crsListOf fd → c2 ∈ crsListOf fd → c1 ≠ c2 →
      (validate_fire_data fd).crs_match = false ∧
      (validate_fire_data fd).fire_valid = false) := by
  constructor
  · intro fd
    rw [validate_fire_data_crs_match_eq, decide_eq_true_iff]
    exact pySetSize_le_one_iff _
  · intro fd c1 c2 h1 h2 hne
    have hnot : ¬ pySetSize (crsListOf fd) ≤ 1 := by
      intro hle
      exact hne ((pySetSize_le_one_iff _).mp hle c1 h1 c2 h2)
    have hm : (validate_fire_data fd).crs_match = false := by
      rw [validate_fire_data_crs_match_eq]
      exact decide_eq_false hnot
    refine ⟨hm, ?_⟩
    rw [validate_fire_data_valid_and, hm, Bool.and_false]

/-- The claim's notion of the CRS values "reported by components with a
defined CRS": the CRS of each component whose file opens and whose CRS
is not `None`. -/
def specDefinedCrs (fd : FireData) : List String :=
  (match fd.dem with
    | some (.ok r) => (match r.crs with | some c => [c] | none => [])
    | _ => [])
  ++ (match fd.perimeter with
    | some (.ok g) => (match g.crs with | some c => [c] | none => [])
    | _ => [])
  ++ (match fd.dnbr with
    | some (.ok r) => (match r.crs with | some c => [c] | none => [])
    | _ => [])

/-- A fire whose DEM has CRS `EPSG:4326` and whose dNBR opened cleanly
but has no CRS defined. -/
def fdCrsNone : FireData :=
  ⟨some (.ok ⟨10, 10, 1, some "EPSG:4326", some (-9999), (30, 30), "float32", [5]⟩),
    none,
    some (.ok ⟨10, 10, 1, none, none, (30, 30), "int16", [0]⟩)⟩

/-- **C2** counterexample: in `fdCrsNone` exactly one component has a
defined CRS, so the claim requires `crs_match = true`; but the dNBR's
undefined CRS is stored as the truthy string `"None"`, lands in
`crs_list`, and the code reports `crs_match = false`. -/
theorem validate_fire_data_crs_none_counterexample :
    specDefinedCrs fdCrsNone = ["EPSG:4326"] ∧
    (validate_fire_data fdCrsNone).crs_match = false := by
  constructor
  · simp [specDefinedCrs, fdCrsNone]
  · rw [validate_fire_data_crs_match_eq]
    simp [crsListOf, fdCrsNone, fireCrsList, crsEntry, validate_dem,
      validate_dnbr, crsStr, pySetSize, List.dedup]

/-- A fire whose DEM reports `EPSG:4326` while its perimeter reports
`EPSG:32611`. -/
def fdTwoCrs : FireData :=
  ⟨some (.ok ⟨10, 10, 1, some "EPSG:4326", some (-9999), (30, 30), "float32", [5]⟩),
    some (.ok ⟨[⟨"Polygon", true⟩], some "EPSG:32611", [some 0, some 0, some 1, some 1]⟩),
    none⟩

/-- **C2** witness: two differing defined CRS values force both
`crs_match` and `fire_valid` to false. -/
theorem validate_fire_data_crs_match_iff_witness :
    (validate_fire_data fdTwoCrs).crs_match = false ∧
    (validate_fire_data fdTwoCrs).fire_valid = false :=
  validate_fire_data_crs_match_iff.2 fdTwoCrs "EPSG:4326" "EPSG:32611"
    (by simp [crsListOf, fdTwoCrs, fireCrsList, crsEntry, validate_dem,
      validate_perimeter, crsStr])
    (by simp [crsListOf, fdTwoCrs, fireCrsList, crsEntry, validate_dem,
      validate_perimeter, crsStr])
    (by simp)

/-- **C7**.  Each validator is a total function (exceptions while opening
or reading are modelled by the `missing`/`openError` cases and become
entries of `issues`), and the returned record has `valid = true` exactly
when the `issues` list is empty. -/
theorem validators_valid_iff_no_issues :
    (∀ f : FSFile Raster,
      (validate_dem f).valid = true ↔ (validate_dem f).issues = []) ∧
    (∀ f : FSFile GeoDataFrame,
      (validate_perimeter f).valid = true ↔ (validate_perimeter f).issues = []) ∧
    (∀ f : FSFile Raster,
      (validate_dnbr f).valid = true ↔ (validate_dnbr f).issues = []) := by
  refine ⟨fun f => ?_, fun f => ?_, fun f => ?_⟩
  · cases f with
    | missing => simp [validate_dem]
    | openError e => simp [validate_dem]
    | ok src => simp [validate_dem, List.isEmpty_iff]
  · cases f with
    | missing => simp [validate_perimeter]
    | openError e => simp [validate_perimeter]
    | ok gdf => simp [validate_perimeter, List.isEmpty_iff]
  · cases f with
    | missing => simp [validate_dnbr]
    | openError e => simp [validate_dnbr]
    | ok src =>
      obtain ⟨w, h, c, crs, nd, res, dt, data⟩ := src
      cases data <;> simp [validate_dnbr, List.isEmpty_iff]

/-- **C8**.  A raster that opens with a band count different from 1 never
validates: both `validate_dem` and `validate_dnbr` record the band issue
and return `valid = false`. -/
theorem band_count_invalidates :
    ∀ src : Raster, src.count ≠ 1 →
      (validate_dem (.ok src)).valid = false ∧
      (validate_dnbr (.ok src)).valid = false := by
  intro src hc
  obtain ⟨w, h, c, crs, nd, res, dt, data⟩ := src
  refine ⟨?_, ?_⟩
  · simp [validate_dem, hc]
  · cases data <;> simp [validate_dnbr, hc]

/-- A two-band raster that is otherwise perfectly well formed. -/
def twoBandRaster : Raster :=
  ⟨5, 5, 2, some "EPSG:4326", some (-9999), (30, 30), "float32", [1]⟩

/-- **C8** witness: the band-count theorem applied to a concrete
two-band raster. -/
theorem band_count_invalidates_witness :
    (validate_dem (.ok twoBandRaster)).valid = false ∧
    (validate_dnbr (.ok twoBandRaster)).valid = false :=
  band_count_invalidates twoBandRaster (by decide)

/-- **C10**.  A `fire_data` mapping with no validatable component passes
vacuously: `fire_valid = true`, `crs_match = true`, and the per-component
results are the initial empty dicts. -/
theorem validate_fire_data_vacuous :
    validate_fire_data ⟨none, none, none⟩ = ⟨true, none, none, none, true⟩ := rfl

/-! ### src/data_acquisition/mtbs_extractor.py -/

/-- Python's `str.split("-")` on a character list: always at least one
(possibly empty) part, a new part after every hyphen. -/
def splitDash : List Char → List (List Char)
  | [] => [[]]
  | c :: rest =>
    let r := splitDash rest
    if c = '-' then [] :: r
    else
      match r with
      | h :: t => (c :: h) :: t
      | [] => [[c]]

/-- `MTBSExtractor.format_fire_date`: strip spaces and commas
(`replace(" ", "").replace(",", "")`), split on `"-"`, reverse the parts
and concatenate (`"".join(date_parts[::-1])`).  The `try` never fires for
a string input, so the function is total here. -/
def format_fire_date (fire_date : String) : String :=
  let cleaned := fire_date.data.filter (fun c => decide ¬(c = ' ' ∨ c = ','))
  String.join (((splitDash cleaned).map String.mk).reverse)

/-- `MTBSExtractor.sanitize_filename`: each character of the class
`<>:"/\|?*` becomes an underscore. -/
def sanitize_filename (name : String) : String :=
  String.mk (name.data.map (fun c =>
    if c = '<' ∨ c = '>' ∨ c = ':' ∨ c = '\"' ∨ c = '/' ∨ c = '\\' ∨ c = '|'
        ∨ c = '?' ∨ c = '*'
    then '_' else c))

/-- What `extract_single_bundle` observes after extraction: the zip
file's stem (the initial extraction folder name), the parse result of the
metadata XML (`none` when no `*_metadata.xml` was found; the fields are
`extract_fire_info`'s possibly-`None` name and date), and the names
already present in the year folder. -/
structure BundleInput where
  zipStem : String
  xmlMeta : Option (Option String × Option String)
  existing : List String

/-- The result dict of `extract_single_bundle` on the non-exception path:
`extracted_to` is the final folder name. -/
structure ExtractResult where
  success : Bool
  extracted_to : String
  fire_name : Option String
  fire_date : Option String

/-- `MTBSExtractor.extract_single_bundle` after a successful unzip: when
the metadata yields a truthy name and date, the formatted date is truthy,
and the target name is free, the folder is renamed to
`{sanitized-name}_{formatted-date}`; every other path keeps the zip
stem. -/
def extract_single_bundle (b : BundleInput) : ExtractResult :=
  let folder_name := b.zipStem
  match b.xmlMeta with
  | some (some fire_name, some fire_date) =>
    if fire_name ≠ "" ∧ fire_date ≠ "" then
      let formatted_date := format_fire_date fire_date
      if formatted_date ≠ "" then
        let new_folder_name := sanitize_filename fire_name ++ "_" ++ formatted_date
        if new_folder_name ∉ b.existing then
          ⟨true, new_folder_name, some fire_name, some fire_date⟩
        else ⟨true, folder_name, none, none⟩
      else ⟨true, folder_name, none, none⟩
    else ⟨true, folder_name, none, none⟩
  | some _ => ⟨true, folder_name, none, none⟩
  | none => ⟨true, folder_name, none, none⟩

/-- **C3** (amended).  For an archive whose metadata yields a truthy
fire name and date, whose formatted date (spaces and commas removed,
hyphen-split parts reversed and concatenated) is nonempty, and whose
target name is not already taken, the extraction folder is renamed to
`sanitize(name) + "_" + formatted_date`; when either field is missing the
folder keeps the zip file's stem. -/
theorem extract_single_bundle_rename :
    (∀ stem name date existing, name ≠ "" → date ≠ "" →
      format_fire_date date ≠ "" →
      sanitize_filename name ++ "_" ++ format_fire_date date ∉ existing →
      (extract_single_bundle ⟨stem, some (some name, some date), existing⟩).extracted_to
        = sanitize_filename name ++ "_" ++ format_fire_date date) ∧
    (∀ stem date existing,
      (extract_single_bundle ⟨stem, some (none, date), existing⟩).extracted_to = stem) ∧
    (∀ stem name existing,
      (extract_single_bundle ⟨stem, some (name, none), existing⟩).extracted_to = stem) := by
  refine ⟨fun stem name date existing h1 h2 h3 h4 => ?_, fun stem date existing => ?_,
    fun stem name existing => ?_⟩
  · simp [extract_single_bundle, h1, h2, h3, h4]
  · cases date <;> rfl
  · cases name <;> rfl

/-- An archive whose metadata holds the truthy name `FIRE` and the truthy
date `-`, extracting into an empty year folder. -/
def hyphenDateBundle : BundleInput :=
  ⟨"ca3949212116920200816", some (some "FIRE", some "-"), []⟩

/-- **C3** counterexample: the date `-` is truthy, so the claim requires
the folder to be renamed to `sanitize("FIRE") + "_" + reverse(parts)`,
which is `FIRE_`; but the formatted date is the empty string, the code's
`if formatted_date:` guard fails, and the folder keeps the zip stem. -/
theorem extract_single_bundle_hyphen_counterexample :
    (extract_single_bundle hyphenDateBundle).extracted_to = "ca3949212116920200816" ∧
    sanitize_filename "FIRE" ++ "_" ++ format_fire_date "-" = "FIRE_" ∧
    ("ca3949212116920200816" : String) ≠ "FIRE_" := by
  refine ⟨by decide, by decide, by decide⟩

/-- **C3** witness: the rename branch applied to a concrete archive. -/
theorem extract_single_bundle_rename_witness :
    (extract_single_bundle
      ⟨"ca12345", some (some "CAMP FIRE", some "2018-11-8"), []⟩).extracted_to
      = sanitize_filename "CAMP FIRE" ++ "_" ++ format_fire_date "2018-11-8" :=
  extract_single_bundle_rename.1 "ca12345" "CAMP FIRE" "2018-11-8" []
    (by decide) (by decide) (by decide) (by decide)

/-! ### src/preprocessing/data_clipper.py -/

/-- Abstract geometry values: a loaded source layer, a buffered copy
(`.buffer(distance)`), a reprojected copy (`.to_crs(target)`), and a
clip of a data layer by a mask layer (`rasterio.mask.mask(..., crop=True)`
or `gpd.clip`). -/
inductive Geom where
  | source (id : ℕ)
  | buffered (g : Geom) (distance : ℚ)
  | reprojected (g : Geom) (target : Option String)
  | clipped (data mask : Geom)
deriving DecidableEq

/-- A CRS-carrying layer (GeoDataFrame or rasterio dataset). -/
structure GeoData where
  crs : Option String
  geom : Geom
deriving DecidableEq

/-- `.to_crs(target)`: the geometry is resampled into the target CRS. -/
def to_crs (g : GeoData) (target : Option String) : GeoData :=
  ⟨target, .reprojected g.geom target⟩

/-- `.buffer(distance)`: geometry grows, CRS is kept. -/
def gbuffer (g : GeoData) (distance : ℚ) : GeoData :=
  ⟨g.crs, .buffered g.geom distance⟩

/-- The shared `if buffer_distance > 0: perimeter = perimeter.buffer(...)`
step of both clip functions. -/
def pyBuffer (perimeter : GeoData) (buffer_distance : ℚ) : GeoData :=
  if 0 < buffer_distance then gbuffer perimeter buffer_distance else perimeter

/-- The layers `clip_raster`/`clip_vector` write and use: `output` is
the dataset written to `output_path`, `perimeterUsed` the perimeter
geometry handed to the masking/clipping call. -/
structure ClipOutcome where
  output : GeoData
  perimeterUsed : GeoData
deriving DecidableEq

/-- `DataClipper.clip_raster`: buffers the perimeter if requested,
reprojects the *perimeter* to the raster's CRS when they differ, then
masks and crops the raster; the written raster keeps `src`'s metadata
(in particular its CRS). -/
def clip_raster (src : GeoData) (perimeter : GeoData)
    (buffer_distance : ℚ) : ClipOutcome :=
  let perimeter := pyBuffer perimeter buffer_distance
  let perimeter := if perimeter.crs ≠ src.crs then to_crs perimeter src.crs else perimeter
  ⟨⟨src.crs, .clipped src.geom perimeter.geom⟩, perimeter⟩

/-- `DataClipper.clip_vector`: buffers the perimeter if requested,
reprojects the *shared vector dataset* to the perimeter's CRS when they
differ (`vector_data = vector_data.to_crs(perimeter.crs)`), then clips
with `gpd.clip(vector_data, perimeter)`. -/
def clip_vector (vector_data : GeoData) (perimeter : GeoData)
    (buffer_distance : ℚ) : ClipOutcome :=
  let perimeter := pyBuffer perimeter buffer_distance
  let vector_data :=
    if vector_data.crs ≠ perimeter.crs then to_crs vector_data perimeter.crs
    else vector_data
  ⟨⟨vector_data.crs, .clipped vector_data.geom perimeter.geom⟩, perimeter⟩

theorem pyBuffer_crs (p : GeoData) (d : ℚ) : (pyBuffer p d).crs = p.crs := by
  unfold pyBuffer
  split <;> rfl

/-- **C4** (amended).  When the CRSs differ, `clip_raster` reprojects the
perimeter to the raster's CRS and never the raster, while `clip_vector`
reprojects the shared vector dataset to the perimeter's CRS and never
the perimeter: the raster/vector clip outcomes are exactly the recorded
equations, with the `.reprojected` wrapper on the perimeter
(resp. the dataset) side only. -/
theorem clip_reprojection_direction :
    (∀ (src perimeter : GeoData) (bd : ℚ), perimeter.crs ≠ src.crs →
      clip_raster src perimeter bd =
        ⟨⟨src.crs, .clipped src.geom (.reprojected (pyBuffer perimeter bd).geom src.crs)⟩,
          ⟨src.crs, .reprojected (pyBuffer perimeter bd).geom src.crs⟩⟩) ∧
    (∀ (vector_data perimeter : GeoData) (bd : ℚ), vector_data.crs ≠ perimeter.crs →
      clip_vector vector_data perimeter bd =
        ⟨⟨perimeter.crs, .clipped (.reprojected vector_data.geom perimeter.crs)
            (pyBuffer perimeter bd).geom⟩,
          pyBuffer perimeter bd⟩) := by
  constructor
  · intro src perimeter bd h
    have hc : (pyBuffer perimeter bd).crs ≠ src.crs := by rw [pyBuffer_crs]; exact h
    simp only [clip_raster]
    rw [if_pos hc]
    rfl
  · intro vector_data perimeter bd h
    have hc : vector_data.crs ≠ (pyBuffer perimeter bd).crs := by rw [pyBuffer_crs]; exact h
    simp only [clip_vector]
    rw [if_pos hc, pyBuffer_crs]
    rfl

/-- A soil layer in `EPSG:5070` and a fire perimeter in `EPSG:4326`. -/
def soilLayer : GeoData := ⟨some "EPSG:5070", .source 0⟩

/-- The perimeter layer of the **C4** counterexample. -/
def firePerimeterLayer : GeoData := ⟨some "EPSG:4326", .source 1⟩

/-- **C4** counterexample: in `clip_vector` with differing CRSs the
perimeter is used untouched and it is the shared dataset whose geometry
is wrapped in `.reprojected` (to the *perimeter's* CRS), contradicting
the claim that the perimeter is reprojected to the shared dataset's CRS
and the shared dataset never is. -/
theorem clip_vector_reprojects_dataset :
    (clip_vector soilLayer firePerimeterLayer 0).perimeterUsed = firePerimeterLayer ∧
    (clip_vector soilLayer firePerimeterLayer 0).output =
      ⟨some "EPSG:4326",
        .clipped (.reprojected (.source 0) (some "EPSG:4326")) (.source 1)⟩ := by
  refine ⟨rfl, rfl⟩

/-- **C4** witness: the amended direction theorem applied to the
concrete layers of the counterexample. -/
theorem clip_reprojection_direction_witness :
    clip_vector soilLayer firePerimeterLayer 0 =
      ⟨⟨firePerimeterLayer.crs,
          .clipped (.reprojected soilLayer.geom firePerimeterLayer.crs)
            (pyBuffer firePerimeterLayer 0).geom⟩,
        pyBuffer firePerimeterLayer 0⟩ :=
  clip_reprojection_direction.2 soilLayer firePerimeterLayer 0 (by decide)

/-! ### src/wildcat_automation.py  (run_batch_assessment) -/

/-- One entry of `initialized_projects` together with what the skip check
observes on disk: `exports = none` models a missing `exports` directory,
`some files` the outcome of `os.listdir(export_dir)`. -/
structure ProjectInfo where
  name : String
  fire_size_mb : ℚ
  exports : Option (List String)
deriving DecidableEq

/-- Python `f.endswith('.shp')`. -/
def endsWithShp (f : String) : Bool :=
  List.isSuffixOf ".shp".data f.data

/-- The skip check of `run_batch_assessment`:
`os.path.exists(export_dir) and any(f.endswith('.shp') for f in
os.listdir(export_dir))`. -/
def hasShpExport (p : ProjectInfo) : Bool :=
  match p.exports with
  | some files => files.any endsWithShp
  | none => false

/-- The comparison key of `sorted(initialized_projects.items(),
key=lambda x: x[1].get('fire_size_mb', 0))`. -/
def sizeLE (a b : ProjectInfo) : Prop := a.fire_size_mb ≤ b.fire_size_mb

instance : DecidableRel sizeLE := fun a b =>
  inferInstanceAs (Decidable (a.fire_size_mb ≤ b.fire_size_mb))

instance : IsTotal ProjectInfo sizeLE := ⟨fun a b => le_total a.fire_size_mb b.fire_size_mb⟩

instance : IsTrans ProjectInfo sizeLE := ⟨fun _ _ _ => le_trans⟩

/-- `sorted(...)` by ascending `fire_size_mb`: Python's sort is stable,
as is insertion sort with a total preorder, so the two agree. -/
def sorted_projects (initialized_projects : List ProjectInfo) : List ProjectInfo :=
  List.insertionSort sizeLE initialized_projects

/-- `WildcatAutomation.run_batch_assessment`, parameterized by the
per-fire assessment `run_single_assessment` (an opaque external-tool
call): iterates the size-sorted projects, skips a fire when
`skip_existing` holds and the skip check fires, and otherwise appends
the fire's assessment to the results mapping. -/
def run_batch_assessment {α : Type} (runSingle : ProjectInfo → α)
    (initialized_projects : List ProjectInfo) (skip_existing : Bool) :
    List (String × α) :=
  (sorted_projects initialized_projects).foldl
    (fun results p =>
      if skip_existing && hasShpExport p then results
      else results ++ [(p.name, runSingle p)]) []

/-- The fires actually assessed by a run, in processing order. -/
def assessed_fires (skip_existing : Bool) (initialized_projects : List ProjectInfo) :
    List ProjectInfo :=
  (sorted_projects initialized_projects).filter
    (fun p => !(skip_existing && hasShpExport p))

theorem run_batch_foldl_eq {α : Type} (f : ProjectInfo → α) (cond : ProjectInfo → Bool)
    (l : List ProjectInfo) (acc : List (String × α)) :
    l.foldl
        (fun results p =>
          if cond p then results else results ++ [(p.name, f p)]) acc
      = acc ++ (l.filter (fun p => !(cond p))).map (fun p => (p.name, f p)) := by
  induction l generalizing acc with
  | nil => simp
  | cons p t ih =>
    rw [List.foldl_cons, List.filter_cons]
    cases hb : cond p <;> simp [hb, ih, List.append_assoc]

/-- The results mapping is exactly the assessed fires, in order. -/
theorem run_batch_eq_map_assessed {α : Type} (f : ProjectInfo → α)
    (projects : List ProjectInfo) (skip : Bool) :
    run_batch_assessment f projects skip
      = (assessed_fires skip projects).map (fun p => (p.name, f p)) := by
  have h := run_batch_foldl_eq f (fun p => skip && hasShpExport p)
    (sorted_projects projects) []
  unfold run_batch_assessment assessed_fires
  simpa using h

theorem assessed_fires_sorted (skip : Bool) (projects : List ProjectInfo) :
    (assessed_fires skip projects).Pairwise sizeLE := by
  unfold assessed_fires sorted_projects
  exact (List.sorted_insertionSort sizeLE projects).sublist (List.filter_sublist _)

theorem mem_assessed_fires (skip : Bool) (projects : List ProjectInfo)
    (p : ProjectInfo) :
    p ∈ assessed_fires skip projects ↔ p ∈ projects ∧ !(skip && hasShpExport p) := by
  unfold assessed_fires sorted_projects
  rw [List.mem_filter]
  constructor
  · rintro ⟨hm, hc⟩
    exact ⟨(List.perm_insertionSort sizeLE projects).mem_iff.mp hm, hc⟩
  · rintro ⟨hm, hc⟩
    exact ⟨(List.perm_insertionSort sizeLE projects).mem_iff.mpr hm, hc⟩

/-- **C5**.  The results mapping is built over the size-sorted project
list, and any fire assessed later in a run has a `fire_size_mb` at least
as large: in particular of two assessed fires the strictly smaller one is
assessed first. -/
theorem run_batch_assessment_size_order :
    (∀ (α : Type) (runSingle : ProjectInfo → α) (projects : List ProjectInfo) (skip : Bool),
      run_batch_assessment runSingle projects skip
        = (assessed_fires skip projects).map (fun p => (p.name, runSingle p))) ∧
    (∀ (skip : Bool) (projects pre mid post : List ProjectInfo) (a b : ProjectInfo),
      assessed_fires skip projects = pre ++ (a :: (mid ++ (b :: post))) →
      a.fire_size_mb ≤ b.fire_size_mb) := by
  constructor
  · intro α f projects skip
    exact run_batch_eq_map_assessed f projects skip
  · intro skip projects pre mid post a b heq
    have hp : (assessed_fires skip projects).Pairwise sizeLE :=
      assessed_fires_sorted skip projects
    rw [heq] at hp
    have h1 : List.Sublist [b] (mid ++ (b :: post)) :=
      ((List.nil_sublist post).cons₂ b).trans (List.sublist_append_right mid (b :: post))
    have h2 : List.Sublist [a, b] (a :: (mid ++ (b :: post))) := h1.cons₂ a
    have h3 : List.Sublist [a, b] (pre ++ (a :: (mid ++ (b :: post)))) :=
      h2.trans (List.sublist_append_right pre _)
    have hab : List.Pairwise sizeLE [a, b] := hp.sublist h3
    exact (List.pairwise_cons.mp hab).1 b (List.mem_singleton.mpr rfl)

/-- Two initialized projects, listed largest first. -/
def bigProject : ProjectInfo := ⟨"big", 2, none⟩

/-- The smaller project of the **C5** witness. -/
def smallProject : ProjectInfo := ⟨"small", 1, none⟩

/-- **C5** witness: in a run over `[bigProject, smallProject]` the
assessed order is small first, and the order theorem applies to that
decomposition. -/
theorem run_batch_assessment_size_order_witness :
    smallProject.fire_size_mb ≤ bigProject.fire_size_mb :=
  run_batch_assessment_size_order.2 false [bigProject, smallProject] [] [] []
    smallProject bigProject (by decide)

theorem hasShpExport_iff (p : ProjectInfo) :
    hasShpExport p = true ↔
      ∃ files, p.exports = some files ∧ ∃ fn ∈ files, endsWithShp fn = true := by
  unfold hasShpExport
  cases h : p.exports <;> simp [h, List.any_eq_true]

/-- **C6**.  With `skip_existing = true` a fire is skipped — left out of
the assessed sequence and of the returned results mapping — exactly when
its exports directory exists and lists at least one file ending in
`.shp`. -/
theorem run_batch_skip_existing_iff :
    (∀ (projects : List ProjectInfo) (p : ProjectInfo), p ∈ projects →
      ((∃ files, p.exports = some files ∧ ∃ fn ∈ files, endsWithShp fn = true) ↔
        p ∉ assessed_fires true projects)) ∧
    (∀ (α : Type) (runSingle : ProjectInfo → α) (projects : List ProjectInfo)
        (p : ProjectInfo), p ∈ projects → (projects.map (fun q => q.name)).Nodup →
      (p.name ∉ (run_batch_assessment runSingle projects true).map Prod.fst ↔
        ∃ files, p.exports = some files ∧ ∃ fn ∈ files, endsWithShp fn = true)) := by
  constructor
  · intro projects p hp
    rw [← hasShpExport_iff, mem_assessed_fires]
    cases hps : hasShpExport p <;> simp [hps, hp]
  · intro α f projects p hp hnd
    rw [run_batch_eq_map_assessed, ← hasShpExport_iff, List.map_map]
    constructor
    · intro hnotin
      cases hps : hasShpExport p with
      | true => rfl
      | false =>
        exfalso
        have hmem : p ∈ assessed_fires true projects :=
          (mem_assessed_fires true projects p).mpr ⟨hp, by simp [hps]⟩
        exact hnotin (List.mem_map.mpr ⟨p, hmem, rfl⟩)
    · intro hshp hin
      rcases List.mem_map.mp hin with ⟨q, hq, hqname⟩
      have hqmem := (mem_assessed_fires true projects q).mp hq
      have hqp : q = p :=
        List.inj_on_of_nodup_map hnd hqmem.1 hp hqname
      rw [hqp] at hqmem
      rw [hshp] at hqmem
      simp at hqmem

/-- A project whose exports directory already holds a shapefile. -/
def doneProject : ProjectInfo := ⟨"done", 1, some ["basins.shp", "basins.dbf"]⟩

/-- **C6** witness: a project with `basins.shp` in its exports directory
is dropped from the assessed sequence. -/
theorem run_batch_skip_existing_iff_witness :
    doneProject ∉ assessed_fires true [doneProject] :=
  (run_batch_skip_existing_iff.1 [doneProject] doneProject (by simp)).mp
    ⟨["basins.shp", "basins.dbf"], rfl, "basins.shp", by simp, by decide⟩

/-! ### src/data_acquisition/asset_uploader.py and gee_downloader.py -/

/-- Python `str.lower()` (per character). -/
def pyLower (s : String) : String := String.mk (s.data.map Char.toLower)

/-- Python `str.replace(old, new)` for a single-character pattern. -/
def pyReplaceChar (s : String) (old new : Char) : String :=
  String.mk (s.data.map (fun c => if c = old then new else c))

/-- Python `fire_name.split('_')[0]`: everything before the first
underscore. -/
def pySplitUnderscoreHead (s : String) : String :=
  String.mk (s.data.takeWhile (fun c => c ≠ '_'))

/-- `AssetUploader.upload_fire_perimeter`:
`asset_name = fire_name.lower().replace(" ", "_").replace("-", "_")`,
`asset_id = f"{self.asset_path}/{year}/{asset_name}"`. -/
def upload_fire_perimeter_asset_id (asset_path fire_name year : String) : String :=
  let asset_name := pyReplaceChar (pyReplaceChar (pyLower fire_name) ' ' '_') '-' '_'
  asset_path ++ "/" ++ year ++ "/" ++ asset_name

/-- `AssetUploader.batch_upload_perimeters` derives
`year = fire_name.split('_')[0]` before calling
`upload_fire_perimeter`. -/
def batch_upload_asset_id (asset_path fire_name : String) : String :=
  upload_fire_perimeter_asset_id asset_path fire_name (pySplitUnderscoreHead fire_name)

/-- `GEEDownloader.batch_download_dems`: `year = fire_name.split('_')[0]`,
`asset_name = fire_name.lower().replace(" ", "_").replace("-", "_")`,
`asset_id = f"{self.asset_path}/{year}/{asset_name}"`. -/
def batch_download_asset_id (asset_path fire_name : String) : String :=
  let year := pySplitUnderscoreHead fire_name
  let asset_name := pyReplaceChar (pyReplaceChar (pyLower fire_name) ' ' '_') '-' '_'
  asset_path ++ "/" ++ year ++ "/" ++ asset_name

/-- The identifier as the spec words it: `asset_path + "/" + year + "/" +`
the fire name lower-cased with spaces and hyphens replaced by
underscores. -/
def spec_asset_id (asset_path fire_name year : String) : String :=
  asset_path ++ "/" ++ year ++ "/"
    ++ pyReplaceChar (pyReplaceChar (pyLower fire_name) ' ' '_') '-' '_'

/-- **C9**.  The uploader's asset identifier equals the spec formula for
every fire name and year, and the downloader's batch construction (which
re-derives the year from the fire key, exactly as the batch uploader
does) produces the identical string. -/
theorem asset_id_agreement :
    (∀ asset_path fire_name year : String,
      upload_fire_perimeter_asset_id asset_path fire_name year
        = spec_asset_id asset_path fire_name year) ∧
    (∀ asset_path fire_name : String,
      batch_download_asset_id asset_path fire_name
        = batch_upload_asset_id asset_path fire_name) :=
  ⟨fun _ _ _ => rfl, fun _ _ => rfl⟩
